import Mathlib

/-!
Shallow embedding of the realtime-sync repository.

Embedded source files:
* `src/sync-core/src/index.ts` — the `SyncRoom` class (socket registry,
  broadcast loop, presence map).
* `src/sync-whiteboard/src/server.ts` (the rooms module) —
  `readSnapshotIfExists`, `saveSnapshot`, `getOrCreateRoom` with its promise
  `mutex` chain, the `onSessionRemoved` callback installed on each
  `TLSocketRoom`, and the `setInterval` persistence loop.

JavaScript `Map` objects are modelled as insertion-ordered association lists
(`MapL`): `Map.prototype.set` replaces an existing key in place (keeping its
original position) and otherwise appends; iteration (`entries`, `values`) is
in that order; `get` returns the first (unique) match; `delete` removes the
entry.  The external `TLSocketRoom` document engine (a dependency, declared an
opaque external collaborator by the design) is modelled by the interface the
repository consumes: construction with an optional initial snapshot, a
current snapshot, `isClosed`, and `close`.
-/

namespace RealtimeSync

/-- Insertion-ordered association list modelling a JavaScript `Map` with
string keys. -/
def MapL (α : Type) : Type := List (String × α)

namespace MapL

/-- The empty map (`new Map()`). -/
def empty {α : Type} : MapL α := []

/-- Embeds `Map.prototype.get`: the value stored at `k`, if any. -/
def get {α : Type} (k : String) : MapL α → Option α
  | [] => none
  | (k', v) :: rest => if k' = k then some v else get k rest

/-- Embeds `Map.prototype.set`: replace in place if the key is present (JS keeps the
original insertion position), otherwise append at the end. -/
def set {α : Type} (k : String) (v : α) : MapL α → MapL α
  | [] => [(k, v)]
  | (k', v') :: rest => if k' = k then (k, v) :: rest else (k', v') :: set k v rest

/-- Embeds `Map.prototype.delete`: remove the entry for `k`, if present. -/
def erase {α : Type} (k : String) : MapL α → MapL α
  | [] => []
  | (k', v') :: rest => if k' = k then rest else (k', v') :: erase k rest

/-- Iteration order of the keys (`Map.prototype.keys`). -/
def keys {α : Type} (m : MapL α) : List String := m.map Prod.fst

end MapL

instance {α : Type} [DecidableEq α] : DecidableEq (MapL α) :=
  inferInstanceAs (DecidableEq (List (String × α)))

/-! ## sync-core: the SyncRoom class

`SyncRoom` (src/sync-core/src/index.ts) keeps a socket registry
(`sockets : Map<string, SyncSocket>`) and an ephemeral presence map
(`presence : Map<string, Presence>`).  Sockets are opaque transport objects
(type parameter `σ`); presence payloads are opaque structured values (type
parameter `π`).  Rooms are embedded with the optional `hooks` absent (the
default configuration; every claim concerns a room constructed without
hooks, and hooks are external observers supplied by the consumer).

A message on the wire is either an application string forwarded by the
message handler, or the presence-change notification
`JSON.stringify({type:"presence", sessionId, data})` built by
`updatePresence`; the `Msg` inductive represents these two string shapes. -/

/-- Wire message: an application text frame, or the serialized presence
notification built by `updatePresence`. -/
inductive Msg (π : Type) where
  | text (s : String)
  | presenceMsg (sessionId : String) (data : π)
deriving DecidableEq

/-- State of one `SyncRoom` instance: its id, the socket registry and the
presence map (both JS `Map`s, keyed by sessionId). -/
structure SyncRoom (σ π : Type) where
  id : String
  sockets : MapL σ
  presence : MapL π
deriving DecidableEq

namespace SyncRoom

/-- Embeds `new SyncRoom({id})`: empty socket registry, empty presence map. -/
def make (σ π : Type) (id : String) : SyncRoom σ π :=
  { id := id, sockets := MapL.empty, presence := MapL.empty }

/-- Embeds `SyncRoom.connect(sessionId, socket)`: `this.sockets.set(sessionId,
socket)` — unconditionally, with no duplicate check, so an existing entry for
`sessionId` is silently replaced.  The installed `onMessage`/`onClose`
handlers are behaviour, embedded separately (`handleClose`, `broadcast`).
The method never throws. -/
def connect {σ π : Type} (r : SyncRoom σ π) (sessionId : String) (socket : σ) :
    SyncRoom σ π :=
  { r with sockets := r.sockets.set sessionId socket }

/-- The `onClose` handler installed by `connect`: deletes the session's
socket entry and its presence entry. -/
def handleClose {σ π : Type} (r : SyncRoom σ π) (sessionId : String) : SyncRoom σ π :=
  { r with sockets := r.sockets.erase sessionId,
           presence := r.presence.erase sessionId }

/-- The `for (const [sessionId, socket] of this.sockets.entries())` loop of
`SyncRoom.broadcast`: skip the originator, otherwise call `socket.send`.
`sendFails sid = true` models `socket.send` throwing for that destination;
the source has no try/catch, so the exception propagates and the loop stops.
Returns the deliveries actually made (in iteration order) and the sessionId
whose send threw, if any. -/
def broadcastLoop {σ π : Type} (sendFails : String → Bool) (fromSessionId : String)
    (message : Msg π) : List (String × σ) → List (String × Msg π) × Option String
  | [] => ([], none)
  | (sessionId, _) :: rest =>
    if sessionId = fromSessionId then
      broadcastLoop sendFails fromSessionId message rest
    else if sendFails sessionId then
      ([], some sessionId)
    else
      let res := broadcastLoop sendFails fromSessionId message rest
      ((sessionId, message) :: res.1, res.2)

/-- Embeds `SyncRoom.broadcast(fromSessionId, message)`: fan out over the socket
registry.  The method body contains no assignment to `this.sockets` or
`this.presence`, so the resulting room state is the receiver itself; the
deliveries and the possible send exception are returned alongside it. -/
def broadcast {σ π : Type} (r : SyncRoom σ π) (sendFails : String → Bool)
    (fromSessionId : String) (message : Msg π) :
    SyncRoom σ π × List (String × Msg π) × Option String :=
  (r, broadcastLoop sendFails fromSessionId message r.sockets)

/-- Embeds `SyncRoom.updatePresence(sessionId, data)`: store the payload in the
presence map (no check that the session has a socket), then broadcast the
presence notification from that session. -/
def updatePresence {σ π : Type} (r : SyncRoom σ π) (sendFails : String → Bool)
    (sessionId : String) (data : π) :
    SyncRoom σ π × List (String × Msg π) × Option String :=
  let r' : SyncRoom σ π := { r with presence := r.presence.set sessionId data }
  r'.broadcast sendFails sessionId (Msg.presenceMsg sessionId data)

/-- Embeds `SyncRoom.getPresence(sessionId)`: `this.presence.get(sessionId)`. -/
def getPresence {σ π : Type} (r : SyncRoom σ π) (sessionId : String) : Option π :=
  r.presence.get sessionId

/-- Embeds `SyncRoom.getAllPresence()` at value level: the entries of the returned
`new Map(this.presence)` equal the entries of the internal map.  The
reference-level fact that the returned object is a fresh copy is embedded
separately (`getAllPresenceRef`). -/
def getAllPresence {σ π : Type} (r : SyncRoom σ π) : MapL π :=
  r.presence

end SyncRoom

/-! ## sync-whiteboard: the rooms module

The rooms module of src/sync-whiteboard/src/server.ts keeps
`rooms : Map<string, RoomState>` and a promise `mutex` chain.  Snapshots are
opaque JSON blobs (type parameter `Snap`).  Durable storage is a function
from roomId to a read outcome; `writeOk` says whether the `writeFile` of a
given roomId succeeds.  The external `TLSocketRoom` engine is modelled by the
interface the module consumes (`new TLSocketRoom({initialSnapshot, ...})`,
`getCurrentSnapshot`, `isClosed`, `close`); the `ctorId` field tags each
construction so that distinct constructions yield distinguishable engines. -/

/-- Model of one `TLSocketRoom` engine instance as consumed by the rooms
module: an identity tag recording which construction produced it, the
snapshot it was restored from, its current snapshot, and its closed flag. -/
structure TLRoom (Snap : Type) where
  ctorId : Nat
  initialSnapshot : Option Snap
  current : Option Snap
  closed : Bool
deriving DecidableEq

namespace TLRoom

/-- Embeds `new TLSocketRoom({schema, initialSnapshot, ...})`: a freshly constructed
engine starts from the given snapshot and is not closed. -/
def construct {Snap : Type} (ctorId : Nat) (initialSnapshot : Option Snap) : TLRoom Snap :=
  { ctorId := ctorId, initialSnapshot := initialSnapshot,
    current := initialSnapshot, closed := false }

/-- Embeds `room.isClosed()`. -/
def isClosed {Snap : Type} (e : TLRoom Snap) : Bool := e.closed

/-- Embeds `room.close()`. -/
def close {Snap : Type} (e : TLRoom Snap) : TLRoom Snap := { e with closed := true }

/-- Embeds `room.getCurrentSnapshot()` (`none` stands for the empty document of a
room constructed without an initial snapshot). -/
def getCurrentSnapshot {Snap : Type} (e : TLRoom Snap) : Option Snap := e.current

end TLRoom

/-- The `RoomState` record of the rooms module: the engine, the roomId, and
the dirty flag `needsPersist`. -/
structure RoomState (Snap : Type) where
  room : TLRoom Snap
  id : String
  needsPersist : Bool
deriving DecidableEq

/-- State of the rooms module: the `rooms` map, plus a count of the
`TLSocketRoom` constructions performed so far (the next construction is
tagged with this count). -/
structure Registry (Snap : Type) where
  rooms : MapL (RoomState Snap)
  ctorCount : Nat
deriving DecidableEq

/-- Outcome of the durable-storage `readFile` for a roomId: data present, no
file (ENOENT), or any other I/O error. -/
inductive ReadResult (Snap : Type) where
  | found (snap : Snap)
  | notFound
  | ioError (msg : String)
deriving DecidableEq

/-- Embeds `readSnapshotIfExists(roomId)`: returns the parsed data on success,
`undefined` when the file does not exist (ENOENT), and rethrows any other
error after logging it. -/
def readSnapshotIfExists {Snap : Type} (storage : String → ReadResult Snap)
    (roomId : String) : Except String (Option Snap) :=
  match storage roomId with
  | ReadResult.found s => Except.ok (some s)
  | ReadResult.notFound => Except.ok none
  | ReadResult.ioError e => Except.error e

/-- Record of one `saveSnapshot` call: the roomId key the blob is written
under, the snapshot captured by `getCurrentSnapshot` at call time, and
whether the write succeeded. -/
structure SaveAttempt (Snap : Type) where
  roomId : String
  data : Option Snap
  ok : Bool
deriving DecidableEq

/-- Embeds `saveSnapshot(roomId, room)`: capture `room.getCurrentSnapshot()` and
attempt the durable write.  The body is wrapped in try/catch whose handler
only logs, so a write failure is swallowed: the function always returns
normally and only the returned attempt record shows the outcome. -/
def saveSnapshot {Snap : Type} (writeOk : String → Bool) (roomId : String)
    (room : TLRoom Snap) : SaveAttempt Snap :=
  { roomId := roomId, data := room.getCurrentSnapshot, ok := writeOk roomId }

/-- Events produced by the room-lifecycle callbacks, in program order. -/
inductive RoomEvent (Snap : Type) where
  | saveAttempt (a : SaveAttempt Snap)
  | engineClosed (roomId : String)
deriving DecidableEq

/-- The `onSessionRemoved` callback installed on every engine at
construction: when `numSessionsRemaining` is 0 it calls
`saveSnapshot(roomId, room)` — whose synchronous prefix captures the current
snapshot before anything else runs — and then `room.close()`.  Returns the
engine afterwards and the emitted events in program order. -/
def onSessionRemoved {Snap : Type} (writeOk : String → Bool) (roomId : String)
    (room : TLRoom Snap) (numSessionsRemaining : Nat) :
    TLRoom Snap × List (RoomEvent Snap) :=
  if numSessionsRemaining = 0 then
    (room.close,
     [RoomEvent.saveAttempt (saveSnapshot writeOk roomId room),
      RoomEvent.engineClosed roomId])
  else
    (room, [])

/-- Creation path of the queued `getOrCreateRoom` body: await
`readSnapshotIfExists`; a rethrown read error is caught by the chain's
`.catch` and returned as a value, leaving the map untouched; on success a new
engine is constructed (with `needsPersist: false`) and stored under
`roomId`. -/
def createRoom {Snap : Type} (storage : String → ReadResult Snap)
    (st : Registry Snap) (roomId : String) : Registry Snap × Option String :=
  match readSnapshotIfExists storage roomId with
  | Except.error e => (st, some e)
  | Except.ok initialSnapshot =>
    let engine := TLRoom.construct st.ctorCount initialSnapshot
    let rs : RoomState Snap := { room := engine, id := roomId, needsPersist := false }
    ({ rooms := st.rooms.set roomId rs, ctorCount := st.ctorCount + 1 }, none)

/-- One queued body of the `mutex` promise chain in `getOrCreateRoom`: if an
entry for `roomId` exists and its engine is not closed, resolve with `null`
(no work); otherwise (absent, or closed and thus treated as stale) run the
creation path. -/
def getOrCreateStep {Snap : Type} (storage : String → ReadResult Snap)
    (st : Registry Snap) (roomId : String) : Registry Snap × Option String :=
  match st.rooms.get roomId with
  | some rs => if rs.room.isClosed then createRoom storage st roomId else (st, none)
  | none => createRoom storage st roomId

/-- What `getOrCreateRoom` resolves with once its queued body has run:
`throw err` when the chain resolved to an error value, otherwise
`rooms.get(roomId)!.room` (the `!` assertion throwing a TypeError if the
entry were absent). -/
def getOrCreateResult {Snap : Type} (st : Registry Snap) (roomId : String)
    (err : Option String) : Except String (TLRoom Snap) :=
  match err with
  | some e => Except.error e
  | none =>
    match st.rooms.get roomId with
    | some rs => Except.ok rs.room
    | none => Except.error "TypeError"

/-- One complete `getOrCreateRoom(roomId)` call: its queued body runs (the
`mutex` chain guarantees no other body is interleaved with it), then the call
rethrows or returns the registered room. -/
def getOrCreateRoom {Snap : Type} (storage : String → ReadResult Snap)
    (st : Registry Snap) (roomId : String) :
    Registry Snap × Except String (TLRoom Snap) :=
  let step := getOrCreateStep storage st roomId
  (step.1, getOrCreateResult step.1 roomId step.2)

/-- A burst of concurrent `getOrCreateRoom` calls: the `mutex` chain runs
their queued bodies strictly one after the other in arrival order, so the
burst is the left-to-right composition of the single calls, each caller
receiving its own call's outcome. -/
def runCalls {Snap : Type} (storage : String → ReadResult Snap)
    (st : Registry Snap) : List String → Registry Snap × List (Except String (TLRoom Snap))
  | [] => (st, [])
  | roomId :: rest =>
    let c := getOrCreateRoom storage st roomId
    let r := runCalls storage c.1 rest
    (r.1, c.2 :: r.2)

/-- One body of the `setInterval(..., 2000)` persistence loop, over the
registry entries in iteration order: a room whose `needsPersist` flag is set
has the flag cleared and `saveSnapshot` called (fire-and-forget — its
failure is swallowed and the flag is not restored); a closed room is removed
from the map.  Returns the surviving entries and the save attempts made. -/
def tickEntries {Snap : Type} (writeOk : String → Bool) :
    List (String × RoomState Snap) →
    List (String × RoomState Snap) × List (SaveAttempt Snap)
  | [] => ([], [])
  | (key, rs) :: rest =>
    let flushed :=
      if rs.needsPersist then
        ({ rs with needsPersist := false }, [saveSnapshot writeOk rs.id rs.room])
      else (rs, [])
    let r := tickEntries writeOk rest
    if flushed.1.room.isClosed then (r.1, flushed.2 ++ r.2)
    else ((key, flushed.1) :: r.1, flushed.2 ++ r.2)

/-- One tick of the persistence scheduler on the whole registry. -/
def tick {Snap : Type} (writeOk : String → Bool) (st : Registry Snap) :
    Registry Snap × List (SaveAttempt Snap) :=
  let r := tickEntries writeOk st.rooms
  ({ st with rooms := r.1 }, r.2)

/-! ## Reference-level model of `getAllPresence`

`getAllPresence` returns `new Map(this.presence)`.  To state that this is a
defensive copy — mutating the returned object does not change the room's
internal map — JS reference semantics is made explicit: a heap of `Map`
objects addressed by `Nat` references, the room's presence field holding a
reference into it. -/

/-- Heap of `Map` objects, giving JS reference semantics to `Map` values. -/
structure MapHeap (α : Type) where
  cells : List (MapL α)

namespace MapHeap

/-- Dereference: the map object at `ref`. -/
def deref {α : Type} (h : MapHeap α) (ref : Nat) : MapL α := h.cells.getD ref []

/-- Embeds `new Map(entries)`: allocate a fresh object, returning its reference. -/
def alloc {α : Type} (h : MapHeap α) (m : MapL α) : MapHeap α × Nat :=
  ({ cells := h.cells ++ [m] }, h.cells.length)

/-- In-place mutation of the object at `ref` (e.g. `map.set`, `map.clear`
performed by external code on a map it holds a reference to). -/
def mutate {α : Type} (h : MapHeap α) (ref : Nat) (f : MapL α → MapL α) : MapHeap α :=
  { cells := h.cells.set ref (f (h.cells.getD ref [])) }

end MapHeap

/-- Embeds `SyncRoom.getAllPresence()` at reference level: `return new
Map(this.presence)` reads the entries of the room's presence object and
allocates a fresh `Map` containing them; the room's own reference is not
touched. -/
def getAllPresenceRef {π : Type} (h : MapHeap π) (presenceRef : Nat) :
    MapHeap π × Nat :=
  h.alloc (h.deref presenceRef)

/-- Embeds `SyncRoom.getPresence(sessionId)` at reference level: a read of the
presence object; the heap is returned unchanged by the method body. -/
def getPresenceRef {π : Type} (h : MapHeap π) (presenceRef : Nat)
    (sessionId : String) : MapHeap π × Option π :=
  (h, (h.deref presenceRef).get sessionId)

/-! ## Concrete instances used by counterexamples and witnesses -/

/-- An open engine with no snapshot, for concrete scenarios. -/
def cexEngine : TLRoom Unit :=
  { ctorId := 0, initialSnapshot := none, current := none, closed := false }

/-- A registry holding one open room "r" that is marked dirty. -/
def cexDirtyRegistry : Registry Unit :=
  { rooms := [("r", { room := cexEngine, id := "r", needsPersist := true })],
    ctorCount := 1 }

/-- The empty registry, before any room has been created. -/
def emptyRegistryU : Registry Unit := { rooms := [], ctorCount := 0 }

/-- A durable storage holding no snapshot for any roomId. -/
def storageEmpty : String → ReadResult Unit := fun _ => ReadResult.notFound

/-- A durable storage whose every read fails with an I/O error. -/
def storageBoom : String → ReadResult Unit := fun _ => ReadResult.ioError "boom"

/-- A durable storage holding a snapshot for every roomId. -/
def storageFound : String → ReadResult Unit := fun _ => ReadResult.found ()

/-! ## Helper lemmas -/

@[simp] theorem MapL.get_set_self {α : Type} (k : String) (v : α) (m : MapL α) :
    MapL.get k (MapL.set k v m) = some v := by
  induction m with
  | nil => simp [MapL.get, MapL.set]
  | cons e rest ih =>
    obtain ⟨k', v'⟩ := e
    by_cases h : k' = k <;> simp [MapL.get, MapL.set, h, ih]

theorem MapL.get_set_ne {α : Type} (k j : String) (v : α) (m : MapL α) (h : j ≠ k) :
    MapL.get j (MapL.set k v m) = MapL.get j m := by
  induction m with
  | nil => simp [MapL.get, MapL.set, Ne.symm h]
  | cons e rest ih =>
    obtain ⟨k', v'⟩ := e
    by_cases hk : k' = k
    · subst hk
      simp [MapL.get, MapL.set, Ne.symm h]
    · simp only [MapL.set, if_neg hk, MapL.get]
      by_cases hj : k' = j <;> simp [hj, ih]

@[simp] theorem MapL.get_empty {α : Type} (k : String) :
    MapL.get k (MapL.empty : MapL α) = none := rfl

/-- Characterization of the broadcast loop: writing `others` for the
registry entries whose key is not the originator, the deliveries are exactly
the prefix of `others` before the first entry whose send throws, and the
reported exception is that first failing entry, if any. -/
theorem broadcastLoop_spec {σ π : Type} (sendFails : String → Bool)
    (fromSessionId : String) (message : Msg π) (l : List (String × σ)) :
    SyncRoom.broadcastLoop sendFails fromSessionId message l =
      (((l.filter (fun en => en.1 != fromSessionId)).takeWhile
          (fun en => !sendFails en.1)).map (fun en => (en.1, message)),
       ((l.filter (fun en => en.1 != fromSessionId)).dropWhile
          (fun en => !sendFails en.1)).head?.map Prod.fst) := by
  induction l with
  | nil => rfl
  | cons e rest ih =>
    obtain ⟨sessionId, sock⟩ := e
    by_cases hfrom : sessionId = fromSessionId
    · simp [SyncRoom.broadcastLoop, hfrom, List.filter_cons, ih]
    · by_cases hfail : sendFails sessionId
      · simp [SyncRoom.broadcastLoop, hfrom, hfail, List.filter_cons, bne_iff_ne,
          List.takeWhile_cons, List.dropWhile_cons]
      · simp [SyncRoom.broadcastLoop, hfrom, hfail, List.filter_cons, bne_iff_ne,
          List.takeWhile_cons, List.dropWhile_cons, ih]

/-- When no send throws, the broadcast delivers the message to exactly the
registry entries other than the originator, in iteration order. -/
theorem broadcastLoop_noFail {σ π : Type} (sendFails : String → Bool)
    (fromSessionId : String) (message : Msg π) (l : List (String × σ))
    (h : ∀ s, sendFails s = false) :
    SyncRoom.broadcastLoop sendFails fromSessionId message l =
      ((l.filter (fun en => en.1 != fromSessionId)).map (fun en => (en.1, message)),
       none) := by
  rw [broadcastLoop_spec]
  have htake : ∀ m : List (String × σ),
      m.takeWhile (fun en => !sendFails en.1) = m := by
    intro m
    apply List.takeWhile_eq_self_iff.mpr
    intro a _
    simp [h a.1]
  have hdrop : ∀ m : List (String × σ),
      m.dropWhile (fun en => !sendFails en.1) = [] := by
    intro m
    apply List.dropWhile_eq_nil_iff.mpr
    intro a _
    simp [h a.1]
  simp [htake, hdrop]

/-- Keys of the non-originator entries: filtering the registry by key and
projecting the keys is projecting the keys and then filtering them. -/
theorem keys_filter_ne {σ : Type} (l : List (String × σ)) (a : String) :
    (l.filter (fun en => en.1 != a)).map Prod.fst =
      (l.map Prod.fst).filter (fun k => k != a) := by
  induction l with
  | nil => rfl
  | cons e rest ih =>
    by_cases h : e.1 != a <;> simp [List.filter_cons, h, ih]

/-- Save attempts of one persistence tick: exactly one `saveSnapshot` call
per dirty entry, in iteration order, and none for a clean entry. -/
theorem tickEntries_attempts {Snap : Type} (writeOk : String → Bool)
    (l : List (String × RoomState Snap)) :
    (tickEntries writeOk l).2 =
      (l.filter (fun en => en.2.needsPersist)).map
        (fun en => saveSnapshot writeOk en.2.id en.2.room) := by
  induction l with
  | nil => rfl
  | cons e rest ih =>
    obtain ⟨key, rs⟩ := e
    by_cases hd : rs.needsPersist <;>
      by_cases hc : rs.room.isClosed <;>
        simp [tickEntries, List.filter_cons, hd, hc, ih]

/-- After one persistence tick, every surviving entry has its dirty flag
cleared (a dirty entry is flushed and cleared; a clean one was already
clear). -/
theorem tickEntries_flags {Snap : Type} (writeOk : String → Bool)
    (l : List (String × RoomState Snap)) :
    ∀ en ∈ (tickEntries writeOk l).1, en.2.needsPersist = false := by
  induction l with
  | nil => intro en h; simp [tickEntries] at h
  | cons e rest ih =>
    obtain ⟨key, rs⟩ := e
    intro en hen
    by_cases hd : rs.needsPersist <;> by_cases hc : rs.room.isClosed
    · simp [tickEntries, hd, hc] at hen
      exact ih en hen
    · simp [tickEntries, hd, hc] at hen
      rcases hen with h | h
      · simp [h]
      · exact ih en h
    · simp [tickEntries, hd, hc] at hen
      exact ih en hen
    · simp [tickEntries, hd, hc] at hen
      rcases hen with h | h
      · subst h
        simpa using hd
      · exact ih en h

/-- A burst of further `getOrCreateRoom` calls after the room exists and is
open: each queued body resolves immediately with no work, and every caller
receives the registered room. -/
theorem runCalls_existing {Snap : Type} (storage : String → ReadResult Snap)
    (st : Registry Snap) (roomId : String) (rs : RoomState Snap) (m : Nat)
    (hget : st.rooms.get roomId = some rs) (hopen : rs.room.isClosed = false) :
    runCalls storage st (List.replicate m roomId) =
      (st, List.replicate m (Except.ok rs.room)) := by
  induction m with
  | zero => rfl
  | succ k ih =>
    have hstep : getOrCreateStep storage st roomId = (st, none) := by
      simp [getOrCreateStep, hget, hopen]
    simp [List.replicate_succ, runCalls, getOrCreateRoom, hstep,
      getOrCreateResult, hget, ih]

/-! ## Claim theorems -/

/-- C1: for every burst of concurrent `getOrCreateRoom(roomId)` calls with
the same never-before-seen roomId (the `mutex` promise chain serializes
their queued bodies, snapshot-restoration read included, in arrival order),
exactly one `TLSocketRoom` construction occurs, and every caller receives
the same room instance. -/
theorem claim_C1 {Snap : Type} (storage : String → ReadResult Snap)
    (st : Registry Snap) (roomId : String) (n : Nat)
    (hfresh : st.rooms.get roomId = none)
    (hread : ∀ e, storage roomId ≠ ReadResult.ioError e)
    (hn : 0 < n) :
    (runCalls storage st (List.replicate n roomId)).1.ctorCount = st.ctorCount + 1 ∧
    ∃ engine : TLRoom Snap,
      ∀ res ∈ (runCalls storage st (List.replicate n roomId)).2,
        res = Except.ok engine := by
  cases n with
  | zero => exact absurd hn (by simp)
  | succ m =>
    obtain ⟨init, hinit⟩ :
        ∃ init, readSnapshotIfExists storage roomId = Except.ok init := by
      cases hs : storage roomId with
      | found s => exact ⟨some s, by simp [readSnapshotIfExists, hs]⟩
      | notFound => exact ⟨none, by simp [readSnapshotIfExists, hs]⟩
      | ioError e => exact absurd hs (hread e)
    have hstep : getOrCreateStep storage st roomId =
        ({ rooms := st.rooms.set roomId
             { room := TLRoom.construct st.ctorCount init, id := roomId,
               needsPersist := false },
           ctorCount := st.ctorCount + 1 }, none) := by
      simp [getOrCreateStep, hfresh, createRoom, hinit]
    have hget1 : (MapL.set roomId
        { room := TLRoom.construct st.ctorCount init, id := roomId,
          needsPersist := false } st.rooms).get roomId =
        some { room := TLRoom.construct st.ctorCount init, id := roomId,
               needsPersist := false } := MapL.get_set_self _ _ _
    have hrest := runCalls_existing storage
      { rooms := MapL.set roomId
          { room := TLRoom.construct st.ctorCount init, id := roomId,
            needsPersist := false } st.rooms,
        ctorCount := st.ctorCount + 1 } roomId
      { room := TLRoom.construct st.ctorCount init, id := roomId,
        needsPersist := false } m hget1 rfl
    have hrun : runCalls storage st (List.replicate (m + 1) roomId) =
        ({ rooms := MapL.set roomId
             { room := TLRoom.construct st.ctorCount init, id := roomId,
               needsPersist := false } st.rooms,
           ctorCount := st.ctorCount + 1 },
         Except.ok (TLRoom.construct st.ctorCount init) ::
           List.replicate m (Except.ok (TLRoom.construct st.ctorCount init))) := by
      simp [List.replicate_succ, runCalls, getOrCreateRoom, hstep,
        getOrCreateResult, hget1, hrest]
    rw [hrun]
    refine ⟨rfl, TLRoom.construct st.ctorCount init, ?_⟩
    intro res hres
    simp only [List.mem_cons] at hres
    rcases hres with h | h
    · exact h
    · exact List.eq_of_mem_replicate h

/-- Witness for C1: two concurrent calls for a brand-new roomId against an
empty registry and a storage with no stored snapshot. -/
theorem claim_C1_witness :
    (emptyRegistryU.rooms.get "r" = none ∧
     (∀ e, storageEmpty "r" ≠ ReadResult.ioError e) ∧
     0 < 2) ∧
    ((runCalls storageEmpty emptyRegistryU
        (List.replicate 2 "r")).1.ctorCount = emptyRegistryU.ctorCount + 1 ∧
     ∃ engine : TLRoom Unit,
       ∀ res ∈ (runCalls storageEmpty emptyRegistryU
           (List.replicate 2 "r")).2, res = Except.ok engine) :=
  ⟨⟨rfl, fun _ h => ReadResult.noConfusion h, by decide⟩,
   claim_C1 storageEmpty emptyRegistryU "r" 2 rfl
     (fun _ h => ReadResult.noConfusion h) (by decide)⟩

/-- C2, as stated, is false on the code: the persistence loop clears
`needsPersist` before calling `saveSnapshot`, and `saveSnapshot` swallows a
write failure, so after a tick whose write fails the dirty flag is cleared —
not left set — and the following tick makes no retry. -/
theorem claim_C2_counterexample :
    (tick (fun _ => false) cexDirtyRegistry).2 =
      [{ roomId := "r", data := none, ok := false }] ∧
    (tick (fun _ => false) cexDirtyRegistry).1.rooms.get "r" =
      some { room := cexEngine, id := "r", needsPersist := false } ∧
    (tick (fun _ => false) (tick (fun _ => false) cexDirtyRegistry).1).2 = [] :=
  ⟨rfl, rfl, rfl⟩

/-- C2 (amended): for every room marked dirty, the next scheduler tick
attempts exactly one snapshot write for it and clears the dirty flag before
the write; the flag is cleared whether or not the write succeeds (a failure
is only logged), so the following tick attempts no further write unless the
room is re-marked; and flush attempts occur only for dirty rooms. -/
theorem claim_C2_amended {Snap : Type} (writeOk writeOk2 : String → Bool)
    (st : Registry Snap) :
    (tick writeOk st).2 =
      (List.filter (fun en => en.2.needsPersist) st.rooms).map
        (fun en => saveSnapshot writeOk en.2.id en.2.room) ∧
    (List.all (tick writeOk st).1.rooms (fun en => !en.2.needsPersist) = true) ∧
    (tick writeOk2 (tick writeOk st).1).2 = [] := by
  refine ⟨tickEntries_attempts writeOk st.rooms, ?_, ?_⟩
  · apply List.all_eq_true.mpr
    intro en hen
    simp [tickEntries_flags writeOk st.rooms en hen]
  · show (tickEntries writeOk2 (tickEntries writeOk st.rooms).1).2 = []
    rw [tickEntries_attempts]
    have hnil : List.filter (fun en => en.2.needsPersist)
        (tickEntries writeOk st.rooms).1 = [] := by
      rw [List.filter_eq_nil_iff]
      intro en hen
      simp [tickEntries_flags writeOk st.rooms en hen]
    rw [hnil]
    rfl

/-- C3, as stated, is false on the code: `SyncRoom.connect` performs
`this.sockets.set(sessionId, socket)` with no duplicate check, so connecting
sessionId "x" a second time does not fail with `DuplicateSessionError`; it
silently replaces the first connection's socket entry (here socket 1 is
replaced by socket 2), so the first connection does not remain unaffected. -/
theorem claim_C3_counterexample :
    ((((SyncRoom.make Nat Unit "room1").connect "x" 1).connect "x" 2).sockets.get "x"
        = some 2) ∧
    ((((SyncRoom.make Nat Unit "room1").connect "x" 1).connect "x" 2).sockets.get "x"
        ≠ some 1) := by
  constructor
  · rfl
  · decide

/-- C3 (amended): for every room and every sessionId already attached to it,
a second `connect(sessionId, socket)` call does not fail: it returns normally
and silently replaces the stored socket for that sessionId (the first
connection's registry entry is overwritten); entries of other sessions are
unaffected. -/
theorem claim_C3_amended {σ π : Type} (r : SyncRoom σ π) (sessionId other : String)
    (s1 s2 : σ) (hother : other ≠ sessionId) :
    (((r.connect sessionId s1).connect sessionId s2).sockets.get sessionId = some s2) ∧
    (((r.connect sessionId s1).connect sessionId s2).sockets.get other
        = r.sockets.get other) := by
  constructor
  · simp [SyncRoom.connect]
  · simp only [SyncRoom.connect]
    rw [MapL.get_set_ne _ _ _ _ hother, MapL.get_set_ne _ _ _ _ hother]

/-- Witness for C3 (amended) at a concrete room and sockets. -/
theorem claim_C3_amended_witness :
    ("y" ≠ "x") ∧
    ((((SyncRoom.make Nat Unit "room1").connect "x" 1).connect "x" 2).sockets.get "x"
        = some 2 ∧
     (((SyncRoom.make Nat Unit "room1").connect "x" 1).connect "x" 2).sockets.get "y"
        = (SyncRoom.make Nat Unit "room1").sockets.get "y") :=
  ⟨by decide, claim_C3_amended (SyncRoom.make Nat Unit "room1") "x" "y" 1 2 (by decide)⟩

/-- C4, as stated, is false on the code: `SyncRoom.broadcast` has no
try/catch around `socket.send`, so when the send to "b" throws, the loop
aborts — "c", although attached and reachable, receives nothing — and no
detach bookkeeping happens for "b": its socket entry is still present
afterwards. -/
theorem claim_C4_counterexample :
    ((SyncRoom.mk "room1" [("a", 1), ("b", 2), ("c", 3)] ([] : MapL Unit)).broadcast
        (fun s => s == "b") "a" (Msg.text "m")).2.1 = [] ∧
    ((SyncRoom.mk "room1" [("a", 1), ("b", 2), ("c", 3)] ([] : MapL Unit)).broadcast
        (fun s => s == "b") "a" (Msg.text "m")).1.sockets.get "b" = some 2 ∧
    ((SyncRoom.mk "room1" [("a", 1), ("b", 2), ("c", 3)] ([] : MapL Unit)).broadcast
        (fun s => s == "b") "a" (Msg.text "m")).2.2 = some "b" := by
  refine ⟨rfl, rfl, rfl⟩

/-- C4 (amended): if a send to one destination fails during broadcast, the
exception propagates and aborts the loop: exactly the attached sessions
other than the originator that precede the first failing one in iteration
order receive the message, the remaining destinations receive nothing, and
the failing session is not detached — the room state (socket registry and
presence) is unchanged. -/
theorem claim_C4_amended {σ π : Type} (r : SyncRoom σ π) (sendFails : String → Bool)
    (fromSessionId : String) (message : Msg π) :
    (r.broadcast sendFails fromSessionId message).1 = r ∧
    (r.broadcast sendFails fromSessionId message).2.1 =
      ((r.sockets.filter (fun en => en.1 != fromSessionId)).takeWhile
        (fun en => !sendFails en.1)).map (fun en => (en.1, message)) ∧
    (r.broadcast sendFails fromSessionId message).2.2 =
      ((r.sockets.filter (fun en => en.1 != fromSessionId)).dropWhile
        (fun en => !sendFails en.1)).head?.map Prod.fst := by
  refine ⟨rfl, ?_, ?_⟩ <;> simp [SyncRoom.broadcast, broadcastLoop_spec]

/-- C5: when the document engine's removal callback `onSessionRemoved`
reports zero remaining sessions, exactly one snapshot write is attempted —
carrying the snapshot captured from the engine before it is closed — and the
`close` of the engine happens after that attempt (the emitted event order is
save first, close second); the engine ends closed. -/
theorem claim_C5 {Snap : Type} (writeOk : String → Bool) (roomId : String)
    (room : TLRoom Snap) (n : Nat) (hn : n = 0) :
    (onSessionRemoved writeOk roomId room n).2 =
      [RoomEvent.saveAttempt
         { roomId := roomId, data := room.getCurrentSnapshot, ok := writeOk roomId },
       RoomEvent.engineClosed roomId] ∧
    (onSessionRemoved writeOk roomId room n).1 = room.close ∧
    ((onSessionRemoved writeOk roomId room n).1).isClosed = true := by
  subst hn
  exact ⟨rfl, rfl, rfl⟩

/-- Witness for C5 at a concrete engine. -/
theorem claim_C5_witness :
    ((0 : Nat) = 0) ∧
    ((onSessionRemoved (fun _ => true) "r" (TLRoom.construct 0 (none : Option Unit)) 0).2 =
      [RoomEvent.saveAttempt
         { roomId := "r",
           data := (TLRoom.construct 0 (none : Option Unit)).getCurrentSnapshot,
           ok := (fun _ => true) "r" },
       RoomEvent.engineClosed "r"] ∧
     (onSessionRemoved (fun _ => true) "r" (TLRoom.construct 0 (none : Option Unit)) 0).1 =
        (TLRoom.construct 0 (none : Option Unit)).close ∧
     ((onSessionRemoved (fun _ => true) "r" (TLRoom.construct 0 (none : Option Unit)) 0).1).isClosed
        = true) :=
  ⟨rfl, claim_C5 (fun _ => true) "r" (TLRoom.construct 0 none) 0 rfl⟩

/-- C6: when snapshot restoration during room creation fails for a reason
other than "no existing snapshot", the error is surfaced to the
`getOrCreateRoom` caller, the registry is unchanged — no Room is registered
for that roomId — and a later request for the same roomId performs a fresh
creation attempt (here: the retry reads storage again, constructs a new
engine and succeeds). -/
theorem claim_C6 {Snap : Type} (storage storage2 : String → ReadResult Snap)
    (st : Registry Snap) (roomId : String) (e : String) (s : Snap)
    (hfresh : st.rooms.get roomId = none)
    (hio : storage roomId = ReadResult.ioError e) :
    (getOrCreateRoom storage st roomId).2 = Except.error e ∧
    (getOrCreateRoom storage st roomId).1 = st ∧
    (getOrCreateRoom storage st roomId).1.rooms.get roomId = none ∧
    (storage2 roomId = ReadResult.found s →
      (getOrCreateRoom storage2 (getOrCreateRoom storage st roomId).1 roomId).1.ctorCount
          = st.ctorCount + 1 ∧
      (getOrCreateRoom storage2 (getOrCreateRoom storage st roomId).1 roomId).2
          = Except.ok (TLRoom.construct st.ctorCount (some s))) := by
  have hstep : getOrCreateStep storage st roomId = (st, some e) := by
    simp [getOrCreateStep, hfresh, createRoom, readSnapshotIfExists, hio]
  refine ⟨?_, ?_, ?_, ?_⟩
  · simp [getOrCreateRoom, hstep, getOrCreateResult]
  · simp [getOrCreateRoom, hstep]
  · simp [getOrCreateRoom, hstep, hfresh]
  · intro h2
    have hstep2 : getOrCreateStep storage2 st roomId =
        ({ rooms := st.rooms.set roomId
             { room := TLRoom.construct st.ctorCount (some s), id := roomId,
               needsPersist := false },
           ctorCount := st.ctorCount + 1 }, none) := by
      simp [getOrCreateStep, hfresh, createRoom, readSnapshotIfExists, h2]
    constructor
    · simp [getOrCreateRoom, hstep, hstep2]
    · simp [getOrCreateRoom, hstep, hstep2, getOrCreateResult]

/-- Witness for C6: a failing read ("boom") against an empty registry,
followed by a retry whose read succeeds. -/
theorem claim_C6_witness :
    (emptyRegistryU.rooms.get "r" = none ∧
     storageBoom "r" = ReadResult.ioError "boom") ∧
    ((getOrCreateRoom storageBoom emptyRegistryU "r").2 = Except.error "boom" ∧
     (getOrCreateRoom storageBoom emptyRegistryU "r").1 = emptyRegistryU ∧
     (getOrCreateRoom storageBoom emptyRegistryU "r").1.rooms.get "r" = none ∧
     (storageFound "r" = ReadResult.found () →
       (getOrCreateRoom storageFound
          (getOrCreateRoom storageBoom emptyRegistryU "r").1 "r").1.ctorCount
          = emptyRegistryU.ctorCount + 1 ∧
       (getOrCreateRoom storageFound
          (getOrCreateRoom storageBoom emptyRegistryU "r").1 "r").2
          = Except.ok (TLRoom.construct emptyRegistryU.ctorCount (some ())))) :=
  ⟨⟨rfl, rfl⟩,
   claim_C6 storageBoom storageFound emptyRegistryU "r" "boom" () rfl rfl⟩

/-- C7: in a room whose attached sessions are exactly {a, b, c}, a broadcast
from a (with no send failures) delivers the message to b and to c, delivers
nothing to a, and makes exactly two deliveries. -/
theorem claim_C7 {σ π : Type} (r : SyncRoom σ π) (sendFails : String → Bool)
    (a b c : String) (msg : Msg π)
    (hperm : (r.sockets.keys).Perm [a, b, c])
    (hab : a ≠ b) (hac : a ≠ c)
    (hok : ∀ s, sendFails s = false) :
    ((b, msg) ∈ (r.broadcast sendFails a msg).2.1 ∧
     (c, msg) ∈ (r.broadcast sendFails a msg).2.1) ∧
    (∀ m, (a, m) ∉ (r.broadcast sendFails a msg).2.1) ∧
    (r.broadcast sendFails a msg).2.1.length = 2 := by
  have hds : (r.broadcast sendFails a msg).2.1 =
      (r.sockets.keys.filter (fun k => k != a)).map (fun k => (k, msg)) := by
    show (SyncRoom.broadcastLoop sendFails a msg r.sockets).1 = _
    rw [broadcastLoop_noFail _ _ _ _ hok]
    show (r.sockets.filter (fun en => en.1 != a)).map (fun en => (en.1, msg)) = _
    rw [show (fun (en : String × σ) => (en.1, msg)) =
          ((fun k => (k, msg)) ∘ Prod.fst) from rfl]
    rw [← List.map_map, keys_filter_ne]
    rfl
  have hkperm : (r.sockets.keys.filter (fun k => k != a)).Perm
      ([a, b, c].filter (fun k => k != a)) := hperm.filter _
  have hfabc : [a, b, c].filter (fun k => k != a) = [b, c] := by
    simp [List.filter_cons, Ne.symm hab, Ne.symm hac]
  rw [hfabc] at hkperm
  have hdperm : (r.broadcast sendFails a msg).2.1.Perm [(b, msg), (c, msg)] := by
    rw [hds]
    simpa using hkperm.map (fun k => (k, msg))
  refine ⟨⟨?_, ?_⟩, ?_, ?_⟩
  · exact hdperm.mem_iff.mpr (by simp)
  · exact hdperm.mem_iff.mpr (by simp)
  · intro m hmem
    have h2 := hdperm.mem_iff.mp hmem
    simp only [List.mem_cons, List.mem_singleton, Prod.mk.injEq,
      List.not_mem_nil, or_false] at h2
    rcases h2 with ⟨h2a, _⟩ | ⟨h2a, _⟩
    · exact hab h2a
    · exact hac h2a
  · simpa using hdperm.length_eq

/-- Witness for C7 at a concrete three-session room. -/
theorem claim_C7_witness :
    ((SyncRoom.mk "w" [("a", 1), ("b", 2), ("c", 3)] ([] : MapL Unit)).sockets.keys.Perm
       ["a", "b", "c"] ∧
     ("a" : String) ≠ "b" ∧ ("a" : String) ≠ "c" ∧
     (∀ s : String, (fun _ => false) s = false)) ∧
    ((("b", Msg.text "m") ∈
        ((SyncRoom.mk "w" [("a", 1), ("b", 2), ("c", 3)] ([] : MapL Unit)).broadcast
          (fun _ => false) "a" (Msg.text "m")).2.1 ∧
      ("c", Msg.text "m") ∈
        ((SyncRoom.mk "w" [("a", 1), ("b", 2), ("c", 3)] ([] : MapL Unit)).broadcast
          (fun _ => false) "a" (Msg.text "m")).2.1) ∧
     (∀ m, ("a", m) ∉
        ((SyncRoom.mk "w" [("a", 1), ("b", 2), ("c", 3)] ([] : MapL Unit)).broadcast
          (fun _ => false) "a" (Msg.text "m")).2.1) ∧
     ((SyncRoom.mk "w" [("a", 1), ("b", 2), ("c", 3)] ([] : MapL Unit)).broadcast
        (fun _ => false) "a" (Msg.text "m")).2.1.length = 2) :=
  ⟨⟨List.Perm.refl _, by decide, by decide, fun _ => rfl⟩,
   claim_C7 (SyncRoom.mk "w" [("a", 1), ("b", 2), ("c", 3)] ([] : MapL Unit))
     (fun _ => false) "a" "b" "c" (Msg.text "m")
     (List.Perm.refl _) (by decide) (by decide) (fun _ => rfl)⟩

/-- C8: `updatePresence(s, p)` followed by `getPresence(s)` returns `p` for
every room — in particular regardless of whether `s` has an attached socket,
since no part of the statement constrains the socket registry — and after
updates from exactly the sessions s1 and s2 (starting from an empty presence
map), `getAllPresence()` holds exactly those two entries. -/
theorem claim_C8 {σ π : Type} (r : SyncRoom σ π) (sendFails : String → Bool)
    (s s1 s2 : String) (p p1 p2 : π) :
    (r.updatePresence sendFails s p).1.getPresence s = some p ∧
    (r.presence = MapL.empty → s1 ≠ s2 →
      ((r.updatePresence sendFails s1 p1).1.updatePresence sendFails s2 p2).1.getAllPresence
        = [(s1, p1), (s2, p2)]) := by
  constructor
  · simp [SyncRoom.updatePresence, SyncRoom.broadcast, SyncRoom.getPresence]
  · intro hemp hne
    simp [SyncRoom.updatePresence, SyncRoom.broadcast, SyncRoom.getAllPresence,
      hemp, MapL.empty, MapL.set, hne]

/-- Witness for C8 at a concrete room with no attached sockets at all. -/
theorem claim_C8_witness :
    ((SyncRoom.make Nat Bool "w").presence = MapL.empty ∧ ("s1" : String) ≠ "s2") ∧
    (((SyncRoom.make Nat Bool "w").updatePresence (fun _ => false) "s1" true).1.getPresence
        "s1" = some true ∧
     (((SyncRoom.make Nat Bool "w").presence = MapL.empty → ("s1" : String) ≠ "s2" →
      (((SyncRoom.make Nat Bool "w").updatePresence (fun _ => false) "s1" true).1.updatePresence
          (fun _ => false) "s2" false).1.getAllPresence = [("s1", true), ("s2", false)]))) :=
  ⟨⟨rfl, by decide⟩,
   claim_C8 (SyncRoom.make Nat Bool "w") (fun _ => false) "s1" "s1" "s2" true true false⟩

/-- C9: `getPresence` and `getAllPresence` are pure reads — the heap of Map
objects, in particular the room's own presence object, is unchanged — and
`getAllPresence` returns a defensive copy: a fresh reference, distinct from
the room's, holding the same entries, and mutating the object behind the
returned reference leaves the room's internal presence object unchanged. -/
theorem claim_C9 {π : Type} (h : MapHeap π) (ref : Nat) (f : MapL π → MapL π)
    (sessionId : String) (hvalid : ref < h.cells.length) :
    (getPresenceRef h ref sessionId).1 = h ∧
    (getAllPresenceRef h ref).1.deref ref = h.deref ref ∧
    (getAllPresenceRef h ref).2 ≠ ref ∧
    (getAllPresenceRef h ref).1.deref (getAllPresenceRef h ref).2 = h.deref ref ∧
    ((getAllPresenceRef h ref).1.mutate (getAllPresenceRef h ref).2 f).deref ref
      = h.deref ref := by
  refine ⟨rfl, ?_, ?_, ?_, ?_⟩
  · show MapHeap.deref _ ref = _
    simp only [getAllPresenceRef, MapHeap.alloc, MapHeap.deref,
      List.getD_eq_getElem?_getD]
    rw [List.getElem?_append_left hvalid]
  · exact (Nat.ne_of_lt hvalid).symm
  · show MapHeap.deref _ _ = _
    simp [getAllPresenceRef, MapHeap.alloc, MapHeap.deref,
      List.getD_eq_getElem?_getD, List.getElem?_concat_length]
  · show MapHeap.deref (MapHeap.mutate _ _ _) ref = _
    simp only [getAllPresenceRef, MapHeap.alloc, MapHeap.deref, MapHeap.mutate,
      List.getD_eq_getElem?_getD]
    rw [List.getElem?_set_ne (Nat.ne_of_lt hvalid).symm,
      List.getElem?_append_left hvalid]

/-- Witness for C9 at a concrete one-object heap. -/
theorem claim_C9_witness :
    (0 < (MapHeap.mk [[("a", true)]]).cells.length) ∧
    ((getPresenceRef (MapHeap.mk [[("a", true)]]) 0 "b").1 = MapHeap.mk [[("a", true)]] ∧
     (getAllPresenceRef (MapHeap.mk [[("a", true)]]) 0).1.deref 0
        = (MapHeap.mk [[("a", true)]]).deref 0 ∧
     (getAllPresenceRef (MapHeap.mk [[("a", true)]]) 0).2 ≠ 0 ∧
     (getAllPresenceRef (MapHeap.mk [[("a", true)]]) 0).1.deref
        (getAllPresenceRef (MapHeap.mk [[("a", true)]]) 0).2
        = (MapHeap.mk [[("a", true)]]).deref 0 ∧
     ((getAllPresenceRef (MapHeap.mk [[("a", true)]]) 0).1.mutate
        (getAllPresenceRef (MapHeap.mk [[("a", true)]]) 0).2 (fun _ => [])).deref 0
        = (MapHeap.mk [[("a", true)]]).deref 0) :=
  ⟨by decide, claim_C9 (MapHeap.mk [[("a", true)]]) 0 (fun _ => []) "b" (by decide)⟩

/-- C10: `broadcast` is a pure fan-out on the room: the socket registry and
the presence map — indeed the whole room state — are identical before and
after the call, for every send-failure pattern and whether or not the
originating sessionId is attached (the method body contains no state
mutation). -/
theorem claim_C10 {σ π : Type} (r : SyncRoom σ π) (sendFails : String → Bool)
    (fromSessionId : String) (message : Msg π) :
    (r.broadcast sendFails fromSessionId message).1.sockets = r.sockets ∧
    (r.broadcast sendFails fromSessionId message).1.presence = r.presence ∧
    (r.broadcast sendFails fromSessionId message).1 = r :=
  ⟨rfl, rfl, rfl⟩

end RealtimeSync
